import Mathlib

/-!
# Verification of the pygame-menu `ScrollBar` widget and `Controller` predicates

Shallow embedding of `pygame_menu/widgets/widget/scrollbar.py` and
`pygame_menu/controls.py`.  Python numbers are modelled as exact rationals
(`ℚ`); quantities the code stores in `pygame.Rect` fields are integers,
obtained by C-style truncation toward zero (`pyTrunc`).  Python's `round`
(banker's rounding) is `pyRound`, Python's float floor-division `//` is
`Int.floor` of the quotient.  Code that can raise (`ZeroDivisionError`,
failed `assert`) is modelled with `Option`: `none` means the Python call
raises, leaving the object unchanged (all mutations in the source happen
after its asserts and divisions).  The slider pad is restricted to an
integer (its construction default is `0`), so pygame's `Rect.inflate`
arithmetic is exact.
-/

namespace PygameMenu

/-- Python `int(q)` / pygame `Rect` coercion of a float: truncation toward zero. -/
def pyTrunc (q : ℚ) : ℤ := if 0 ≤ q then ⌊q⌋ else ⌈q⌉

/-- Python 3 `round(q)`: round half to even (banker's rounding). -/
def pyRound (q : ℚ) : ℤ :=
  if q - ⌊q⌋ < 1/2 then ⌊q⌋
  else if 1/2 < q - ⌊q⌋ then ⌊q⌋ + 1
  else if ⌊q⌋ % 2 = 0 then ⌊q⌋ else ⌊q⌋ + 1

/-- Python `round(q, 3)`: round to three decimal places, half to even. -/
def pyRound3 (q : ℚ) : ℚ := (pyRound (q * 1000) : ℚ) / 1000

/-! ## The `ScrollBar` state

Fields of the Python object that the verified operations read or write.
The flags `readonly`, `visible`, `keyboard_enabled`, `mouse_enabled` and the
absolute rect position come from the `Widget` base class, which is not part
of the sources under verification; they are modelled from the spec
(transitions are no-ops when the widget is read-only or invisible; input
processing is enabled by default) as plain boolean fields.  The
`_slider_rect` is not a separate field: `_apply_size_changes` and
`_scroll.move_ip` keep it derivable from `slider_position`, `page_step`,
`page_ctrl_thick`, `slider_pad` and `orientation`, and the geometry
helpers below compute it from those fields. -/
structure ScrollBarState where
  readonly : Bool
  visible : Bool
  keyboard_enabled : Bool
  mouse_enabled : Bool
  /-- `_orientation`: 0 horizontal, 1 vertical. -/
  orientation : ℕ
  /-- `_values_range[0]`. -/
  vmin : ℚ
  /-- `_values_range[1]`. -/
  vmax : ℚ
  /-- `_page_ctrl_length`. -/
  page_ctrl_length : ℚ
  /-- `_page_ctrl_thick`. -/
  page_ctrl_thick : ℤ
  /-- `_slider_pad`. -/
  slider_pad : ℤ
  /-- `_page_step` (pixels, as computed by `set_page_step`). -/
  page_step : ℚ
  /-- `_single_step`. -/
  single_step : ℚ
  /-- `_slider_position`. -/
  slider_position : ℚ
  /-- `scrolling`. -/
  scrolling : Bool
  /-- `_mouseover`. -/
  mouseover : Bool
  /-- `_last_mouse_pos`. -/
  last_mouse_pos : ℤ × ℤ
  /-- Top-left of `get_rect(to_absolute_position=True)`; the widget only
  accepts translation, so this is an opaque pair fixed during `update`. -/
  rect_pos : ℤ × ℤ
  /-- Whether `_scrollarea` is not `None`. -/
  scrollarea_present : Bool
  /-- Whether `get_scrollarea().get_parent()` is not `None`. -/
  scrollarea_has_parent : Bool
deriving DecidableEq

/-! ## Geometry derived by `_apply_size_changes`

`setattr(self._rect, dims[self._orientation], self._page_ctrl_length)` and
`setattr(self._rect, dims[opp], self._page_ctrl_thick)` give the widget rect
size; the slider rect gets `dims[orientation] := _page_step`,
`dims[opp] := _page_ctrl_thick`, `pos[orientation] := _slider_position`
(pygame truncates float assignments), then `inflate(-2*pad, -2*pad)`
(shrinks both dimensions by `2*pad` and shifts the top-left by `pad`). -/

/-- Width of the widget rect. -/
def rect_w (s : ScrollBarState) : ℤ :=
  if s.orientation = 0 then pyTrunc s.page_ctrl_length else s.page_ctrl_thick

/-- Height of the widget rect. -/
def rect_h (s : ScrollBarState) : ℤ :=
  if s.orientation = 0 then s.page_ctrl_thick else pyTrunc s.page_ctrl_length

/-- Slider rect x, relative to the widget rect (after `inflate`). -/
def slider_x (s : ScrollBarState) : ℤ :=
  if s.orientation = 0 then pyTrunc s.slider_position + s.slider_pad else s.slider_pad

/-- Slider rect y, relative to the widget rect (after `inflate`). -/
def slider_y (s : ScrollBarState) : ℤ :=
  if s.orientation = 0 then s.slider_pad else pyTrunc s.slider_position + s.slider_pad

/-- Slider rect width (after `inflate`). -/
def slider_w (s : ScrollBarState) : ℤ :=
  if s.orientation = 0 then pyTrunc s.page_step - 2 * s.slider_pad
  else s.page_ctrl_thick - 2 * s.slider_pad

/-- Slider rect height (after `inflate`). -/
def slider_h (s : ScrollBarState) : ℤ :=
  if s.orientation = 0 then s.page_ctrl_thick - 2 * s.slider_pad
  else pyTrunc s.page_step - 2 * s.slider_pad

/-- `pygame.Rect.collidepoint`: the point is inside the rect, right and
bottom edges excluded. -/
def point_in_rect (x y w h px py : ℤ) : Prop :=
  x ≤ px ∧ px < x + w ∧ y ≤ py ∧ py < y + h

instance (x y w h px py : ℤ) : Decidable (point_in_rect x y w h px py) := by
  unfold point_in_rect
  infer_instance

/-- `rect.collidepoint(*event.pos)` for the absolute widget rect. -/
def rect_collide (s : ScrollBarState) (px py : ℤ) : Prop :=
  point_in_rect s.rect_pos.1 s.rect_pos.2 (rect_w s) (rect_h s) px py

instance (s : ScrollBarState) (px py : ℤ) : Decidable (rect_collide s px py) := by
  unfold rect_collide
  infer_instance

/-- `get_slider_rect().collidepoint(*event.pos)`: the slider rect moved to
the absolute widget position. -/
def slider_collide (s : ScrollBarState) (px py : ℤ) : Prop :=
  point_in_rect (s.rect_pos.1 + slider_x s) (s.rect_pos.2 + slider_y s)
    (slider_w s) (slider_h s) px py

instance (s : ScrollBarState) (px py : ℤ) : Decidable (slider_collide s px py) := by
  unfold slider_collide
  infer_instance

/-! ## `ScrollBar._scroll`

In the source, `space_before`/`space_after` are computed from the rects:
`space_before = rect.topleft[axis] - slider.move(rect.topleft).topleft[axis]
+ pad`; since `slider.topleft[axis] = trunc(slider_position) + pad`, the rect
offset and the pad cancel, leaving `-trunc(slider_position)`.  Similarly
`space_after = rect.bottomright[axis] - slider.move(rect.topleft)
.bottomright[axis] - pad = trunc(length) - trunc(slider_position) -
trunc(page_step)` (the slider extent along the axis is
`trunc(page_step) - 2*pad`). -/

/-- Pixels of room before the slider (a non-positive bound for a move). -/
def space_before (s : ScrollBarState) : ℤ := -(pyTrunc s.slider_position)

/-- Pixels of room after the slider. -/
def space_after (s : ScrollBarState) : ℤ :=
  pyTrunc s.page_ctrl_length - pyTrunc s.slider_position - pyTrunc s.page_step

/-- `ScrollBar._scroll(rect, pixels)`: clamp the requested move
(`move = min(max(round(pixels), space_before), space_after)`) and apply it.
Returns the new state and whether the position changed. -/
def scroll (s : ScrollBarState) (pixels : ℚ) : ScrollBarState × Bool :=
  if pixels = 0 then (s, false)
  else if min (max (pyRound pixels) (space_before s)) (space_after s) = 0 then
    (s, false)
  else
    ({ s with slider_position := s.slider_position +
        ((min (max (pyRound pixels) (space_before s)) (space_after s) : ℤ) : ℚ) },
      true)

/-! ## Value accessors and setters -/

/-- `ScrollBar.get_value`: `none` models the `ZeroDivisionError` raised when
`page_ctrl_length - page_step = 0`. -/
def get_value (s : ScrollBarState) : Option ℤ :=
  if s.page_ctrl_length - s.page_step = 0 then none
  else
    some (pyTrunc (min s.vmax (max s.vmin (s.vmin +
      s.slider_position * (s.vmax - s.vmin) / (s.page_ctrl_length - s.page_step)))))

/-- `ScrollBar.get_value_percentual`. -/
def get_value_percentual (s : ScrollBarState) : Option ℚ :=
  (get_value s).bind (fun v =>
    if s.vmax - s.vmin = 0 then none
    else some (pyRound3 (((v : ℚ) - s.vmin) / (s.vmax - s.vmin))))

/-- `ScrollBar.get_page_step`: the page step back in value units. -/
def get_page_step (s : ScrollBarState) : Option ℤ :=
  if s.page_ctrl_length = 0 then none
  else some (pyTrunc (s.page_step * (s.vmax - s.vmin) / s.page_ctrl_length))

/-- `ScrollBar.set_length`: `assert 0 < value`, then clamp the slider
position from above by the new `length - page_step` (Python `min`). -/
def set_length (s : ScrollBarState) (value : ℚ) : Option ScrollBarState :=
  if 0 < value then
    some { s with
      page_ctrl_length := value
      slider_position := min s.slider_position (value - s.page_step) }
  else none

/-- `ScrollBar.set_maximum`: `assert value > self._values_range[0]`, then
assign `_values_range[1]`. -/
def set_maximum (s : ScrollBarState) (value : ℚ) : Option ScrollBarState :=
  if s.vmin < value then some { s with vmax := value } else none

/-- `ScrollBar.set_minimum`: `assert 0 <= value < self._values_range[1]`,
then assign `_values_range[0]`. -/
def set_minimum (s : ScrollBarState) (value : ℚ) : Option ScrollBarState :=
  if 0 ≤ value ∧ value < s.vmax then some { s with vmin := value } else none

/-- `ScrollBar.set_page_step`: `assert 0 < value`, derive the pixel page
step `length * value / (max - min)` and, if the stored single step is not
smaller, replace it by `page_step // 2` (Python float floor-division). -/
def set_page_step (s : ScrollBarState) (value : ℚ) : Option ScrollBarState :=
  if 0 < value then
    if s.vmax - s.vmin = 0 then none
    else
      let ps := s.page_ctrl_length * value / (s.vmax - s.vmin)
      let ss := if s.single_step ≥ ps then ((⌊ps / 2⌋ : ℤ) : ℚ) else s.single_step
      some { s with page_step := ps, single_step := ss }
  else none

/-- `ScrollBar.set_value`: `assert vmin <= position_value <= vmax`, convert
the value to pixels, clamp, and `_scroll` by the difference to the current
position. -/
def set_value (s : ScrollBarState) (position_value : ℚ) : Option ScrollBarState :=
  if s.vmin ≤ position_value ∧ position_value ≤ s.vmax then
    if s.vmax - s.vmin = 0 then none
    else
      some (scroll s (min (s.page_ctrl_length - s.page_step)
        (max 0 ((position_value - s.vmin) * (s.page_ctrl_length - s.page_step) /
          (s.vmax - s.vmin))) - s.slider_position)).1
  else none

/-- `ScrollBar.set_orientation` (the string argument is already mapped to
the 0/1 encoding; `assert_orientation` rejects anything else). -/
def set_orientation (s : ScrollBarState) (o : ℕ) : Option ScrollBarState :=
  if o = 0 ∨ o = 1 then some { s with orientation := o } else none

/-- `ScrollBar.__init__`: validates `values_range[1] > values_range[0]` and
`page_ctrl_thick - 2*slider_pad >= 2`, initializes `_single_step = 20`,
`_slider_position = 0`, then chooses the page step: `length` when
`max - min > length`, else `(max - min) / 5`, via `set_page_step`, and
finally applies `set_orientation`. -/
def mkScrollBar (length vmin vmax : ℚ) (slider_pad page_ctrl_thick : ℤ)
    (orientation : ℕ) (rect_pos : ℤ × ℤ)
    (scrollarea_present scrollarea_has_parent : Bool) : Option ScrollBarState :=
  if vmax > vmin ∧ page_ctrl_thick - 2 * slider_pad ≥ 2 then
    let s0 : ScrollBarState :=
      { readonly := false
        visible := true
        keyboard_enabled := true
        mouse_enabled := true
        orientation := 0
        vmin := vmin
        vmax := vmax
        page_ctrl_length := length
        page_ctrl_thick := page_ctrl_thick
        slider_pad := slider_pad
        page_step := 0
        single_step := 20
        slider_position := 0
        scrolling := false
        mouseover := false
        last_mouse_pos := (-1, -1)
        rect_pos := rect_pos
        scrollarea_present := scrollarea_present
        scrollarea_has_parent := scrollarea_has_parent }
    let s1 := if vmax - vmin > length then set_page_step s0 length
      else set_page_step s0 ((vmax - vmin) / 5)
    s1.bind (fun s => set_orientation s orientation)
  else none

/-! ## `ScrollBar.update`

One `update(events)` call.  External state read during the loop —
`pygame.key.get_pressed()` (shift modifiers), `pygame.mouse.get_pos()` and
`self._scrollarea.mouse_is_over()` — is collected in `Env`, constant over
the batch.  `Widget.change()` (which invokes the registered `onchange`
callback) and `Widget.apply_update_callbacks()` are not under `src/`;
modelled from the spec ("fires a change notification", "reports changes to
its owner") by counting invocations: `change_calls` counts `change()`
(one onchange notification each), `update_cbs_applied` records whether
`apply_update_callbacks()` ran. -/

/-- pygame `K_PAGEUP`. -/
def K_PAGEUP : ℤ := 280

/-- pygame `K_PAGEDOWN`. -/
def K_PAGEDOWN : ℤ := 281

/-- One pygame event, tagged with its payload.  `mousemotion` carries the
relative move, absolute position, and whether the `rel` attribute exists
(`hasattr(event, 'rel')`); `other` stands for any event of a type the
scrollbar does not handle. -/
inductive PyEvent where
  | keydown (key : ℤ)
  | mousemotion (relx rely posx posy : ℤ) (has_rel : Bool)
  | activeevent (gain : ℤ)
  | mousebuttondown (button posx posy : ℤ)
  | mousebuttonup (posx posy : ℤ)
  | other
deriving DecidableEq

/-- External state read by `update` from pygame and the scroll area. -/
structure Env where
  shift_pressed : Bool
  mouse_x : ℤ
  mouse_y : ℤ
  scrollarea_mouse_over : Bool
deriving DecidableEq

/-- The boundary-hysteresis test of the `MOUSEMOTION` branch: when
`scrolling`, evaluate `get_value_percentual()` (this is where Python would
raise on a zero denominator, hence `Option`), and skip the event
(`continue`) when the value sits at an extreme, the scroll area and its
parent exist, and the pointer is beyond the half-slider margin of the
track end. -/
def hysteresis_skip (s : ScrollBarState) (env : Env) : Option Bool :=
  if s.scrolling = true then
    (get_value_percentual s).map (fun p =>
      if (p = 0 ∨ p = 1) ∧ s.scrollarea_present = true ∧
          s.scrollarea_has_parent = true then
        if s.orientation = 1 then
          decide ((env.mouse_y : ℚ) > (s.rect_pos.2 : ℚ) + (rect_h s : ℚ) - (slider_h s : ℚ) / 2 ∨
            (env.mouse_y : ℚ) < (s.rect_pos.2 : ℚ) + (slider_h s : ℚ) / 2)
        else
          decide ((env.mouse_x : ℚ) > (s.rect_pos.1 : ℚ) + (rect_w s : ℚ) - (slider_w s : ℚ) / 2 ∨
            (env.mouse_x : ℚ) < (s.rect_pos.1 : ℚ) + (slider_w s : ℚ) / 2)
      else false)
  else some false

/-- The mouse-over bookkeeping at the end of the `MOUSEMOTION` branch:
`_mouseover` follows `rect.collidepoint(event.pos)` (the `mouseover` /
`mouseleave` base-class notifications have no effect on this state). -/
def mouseover_update (s : ScrollBarState) (px py : ℤ) : ScrollBarState :=
  if rect_collide s px py then
    if s.mouseover = false then { s with mouseover := true } else s
  else
    if s.mouseover = true then { s with mouseover := false } else s

/-- Process one event of the `update` loop body.  Returns the new state,
whether this event set `updated`, and how many times it called
`self.change()`.  `none` models an uncaught Python exception. -/
def processEvent (s : ScrollBarState) (env : Env) :
    PyEvent → Option (ScrollBarState × Bool × ℕ)
  | PyEvent.keydown key =>
    if s.keyboard_enabled = true ∧ s.orientation = 1 ∧
        (key = K_PAGEUP ∨ key = K_PAGEDOWN) then
      let direction : ℚ := if key = K_PAGEDOWN then 1 else -1
      let step : ℚ := if env.shift_pressed then s.page_step * (35/100) else s.page_step
      let pr := scroll s (direction * step)
      some (pr.1, pr.2, if pr.2 then 1 else 0)
    else some (s, false, 0)
  | PyEvent.mousemotion relx rely posx posy has_rel =>
    if s.mouse_enabled = true ∧ has_rel = true then
      match hysteresis_skip s env with
      | none => none
      | some true => some (s, false, 0)
      | some false =>
        let pr := if s.scrolling = true then
            scroll s (if s.orientation = 0 then (relx : ℚ) else (rely : ℚ))
          else (s, false)
        some (mouseover_update pr.1 posx posy, pr.2, if pr.2 then 1 else 0)
    else some (s, false, 0)
  | PyEvent.activeevent gain =>
    if gain ≠ 1 then
      some ({ s with last_mouse_pos := (env.mouse_x, env.mouse_y) }, false, 0)
    else
      let lm := s.last_mouse_pos
      let s0 := { s with last_mouse_pos := (-1, -1) }
      if lm.1 = -1 ∨ lm.2 = -1 then some (s0, false, 0)
      else if s0.scrolling = true then
        let delta : ℤ := if s0.orientation = 0 then env.mouse_x - lm.1
          else env.mouse_y - lm.2
        some ((scroll s0 (delta : ℚ)).1, false, 0)
      else some (s0, false, 0)
  | PyEvent.mousebuttondown button posx posy =>
    if s.mouse_enabled = true then
      if (button = 4 ∨ button = 5) ∧ s.orientation = 1 ∧
          ((s.scrollarea_present = true ∧ env.scrollarea_mouse_over = true) ∨
            s.scrollarea_present = false) then
        let direction : ℚ := if button = 4 then -1 else 1
        let pr := scroll s (direction * s.single_step)
        some (pr.1, pr.2, if pr.2 then 1 else 0)
      else if button = 1 ∨ button = 2 ∨ button = 3 then
        if slider_collide s posx posy then
          some ({ s with scrolling := true }, false, 0)
        else if rect_collide s posx posy then
          let spos : ℤ := if s.orientation = 0 then s.rect_pos.1 + slider_x s
            else s.rect_pos.2 + slider_y s
          let epos : ℤ := if s.orientation = 0 then posx else posy
          let direction : ℚ := if spos < epos then 1 else -1
          let pr := scroll s (direction * s.page_step)
          some (pr.1, pr.2, if pr.2 then 1 else 0)
        else some (s, false, 0)
      else some (s, false, 0)
    else some (s, false, 0)
  | PyEvent.mousebuttonup _ _ =>
    if s.mouse_enabled = true then
      if s.scrolling = true then some ({ s with scrolling := false }, true, 0)
      else some (s, false, 0)
    else some (s, false, 0)
  | PyEvent.other => some (s, false, 0)

/-- The `for event in events` loop: thread the state, or the per-event
`updated` flags, add the `change()` counts. -/
def processEvents (s : ScrollBarState) (env : Env) :
    List PyEvent → Option (ScrollBarState × Bool × ℕ)
  | [] => some (s, false, 0)
  | e :: rest =>
    match processEvent s env e with
    | none => none
    | some (s1, u1, c1) =>
      match processEvents s1 env rest with
      | none => none
      | some (s2, u2, c2) => some (s2, u1 || u2, c1 + c2)

/-- Observable outcome of one `ScrollBar.update` call. -/
structure UpdateResult where
  state : ScrollBarState
  /-- The boolean returned by `update`. -/
  changed : Bool
  /-- Number of `self.change()` calls, i.e. onchange notifications fired. -/
  change_calls : ℕ
  /-- Whether `apply_update_callbacks()` ran (after the loop, iff `updated`). -/
  update_cbs_applied : Bool
deriving DecidableEq

/-- `ScrollBar.update(events)`. -/
def update (s : ScrollBarState) (env : Env) (events : List PyEvent) :
    Option UpdateResult :=
  if s.readonly = true ∨ s.visible = false then some ⟨s, false, 0, false⟩
  else
    match processEvents s env events with
    | none => none
    | some (s', u, c) => some ⟨s', u, c, u⟩

/-- Follows the spec's words (amended notification/return-value policy):
an event "contributes" to the return value exactly when it produces a
nonzero clamped move through one of the notifying interactions — keyboard
paging, wheel stepping, drag motion, track click — or when it is a
mouse-button-up that ends an active drag; focus-regain (`ACTIVEEVENT`)
moves and all other events do not contribute. -/
def event_contributes (s : ScrollBarState) (env : Env) : PyEvent → Bool
  | PyEvent.keydown key =>
    s.keyboard_enabled && decide (s.orientation = 1) &&
    (decide (key = K_PAGEUP) || decide (key = K_PAGEDOWN)) &&
    (scroll s ((if key = K_PAGEDOWN then 1 else -1) *
      (if env.shift_pressed then s.page_step * (35/100) else s.page_step))).2
  | PyEvent.mousemotion relx rely _ _ has_rel =>
    s.mouse_enabled && has_rel && !((hysteresis_skip s env).getD false) &&
    s.scrolling &&
    (scroll s (if s.orientation = 0 then (relx : ℚ) else (rely : ℚ))).2
  | PyEvent.activeevent _ => false
  | PyEvent.mousebuttondown button posx posy =>
    s.mouse_enabled &&
    ((decide ((button = 4 ∨ button = 5) ∧ s.orientation = 1 ∧
        ((s.scrollarea_present = true ∧ env.scrollarea_mouse_over = true) ∨
          s.scrollarea_present = false)) &&
      (scroll s ((if button = 4 then -1 else 1) * s.single_step)).2) ||
    (!(decide ((button = 4 ∨ button = 5) ∧ s.orientation = 1 ∧
        ((s.scrollarea_present = true ∧ env.scrollarea_mouse_over = true) ∨
          s.scrollarea_present = false))) &&
      decide (button = 1 ∨ button = 2 ∨ button = 3) &&
      !(decide (slider_collide s posx posy)) &&
      decide (rect_collide s posx posy) &&
      (scroll s ((if (if s.orientation = 0 then s.rect_pos.1 + slider_x s
          else s.rect_pos.2 + slider_y s) <
          (if s.orientation = 0 then posx else posy) then 1 else -1) *
        s.page_step)).2))
  | PyEvent.mousebuttonup _ _ => s.mouse_enabled && s.scrolling
  | PyEvent.other => false

/-! ## `controls.py`: joystick constants and analog-axis predicates -/

/-- `JOY_AXIS_X`. -/
def JOY_AXIS_X : ℤ := 0

/-- `JOY_AXIS_Y`. -/
def JOY_AXIS_Y : ℤ := 1

/-- `JOY_DEADZONE`. -/
def JOY_DEADZONE : ℚ := 1/2

/-- `Controller.joy_axis_x_left`: pure function of the event payload. -/
def joy_axis_x_left (axis : ℤ) (value : ℚ) : Bool :=
  decide (axis = JOY_AXIS_X) && decide (value < -JOY_DEADZONE)

/-- `Controller.joy_axis_x_right`. -/
def joy_axis_x_right (axis : ℤ) (value : ℚ) : Bool :=
  decide (axis = JOY_AXIS_X) && decide (value > JOY_DEADZONE)

/-- `Controller.joy_axis_y_down`. -/
def joy_axis_y_down (axis : ℤ) (value : ℚ) : Bool :=
  decide (axis = JOY_AXIS_Y) && decide (value > JOY_DEADZONE)

/-- `Controller.joy_axis_y_up`. -/
def joy_axis_y_up (axis : ℤ) (value : ℚ) : Bool :=
  decide (axis = JOY_AXIS_Y) && decide (value < -JOY_DEADZONE)

/-! ## Sample reachable states -/

/-- The scrollbar constructed by
`ScrollBar(length=200, values_range=(0, 100))` (horizontal, default pad 0,
thickness 20): `(max - min) = 100 ≤ 200`, so the page step value is
`100 / 5 = 20` and `page_step = 200 * 20 / 100 = 40`; `single_step`
stays `20`. -/
def sampleBar : ScrollBarState :=
  { readonly := false
    visible := true
    keyboard_enabled := true
    mouse_enabled := true
    orientation := 0
    vmin := 0
    vmax := 100
    page_ctrl_length := 200
    page_ctrl_thick := 20
    slider_pad := 0
    page_step := 40
    single_step := 20
    slider_position := 0
    scrolling := false
    mouseover := false
    last_mouse_pos := (-1, -1)
    rect_pos := (0, 0)
    scrollarea_present := false
    scrollarea_has_parent := false }

/-- The same scrollbar constructed vertical. -/
def sampleBarV : ScrollBarState := { sampleBar with orientation := 1 }

/-- A sequence of `_scroll` calls with the given pixel deltas. -/
def scroll_many (s : ScrollBarState) (ps : List ℚ) : ScrollBarState :=
  ps.foldl (fun t px => (scroll t px).1) s

/-- The scrollbar constructed by
`ScrollBar(length=10, values_range=(0, 12))`: `12 - 0 > 10`, so
`set_page_step(10)` derives `page_step = 10 * 10 / 12 = 25/3` and
`single_step = 20 ≥ 25/3` is halved to `⌊25/6⌋ = 4`. -/
def narrowBar : ScrollBarState :=
  { readonly := false
    visible := true
    keyboard_enabled := true
    mouse_enabled := true
    orientation := 0
    vmin := 0
    vmax := 12
    page_ctrl_length := 10
    page_ctrl_thick := 20
    slider_pad := 0
    page_step := 25/3
    single_step := 4
    slider_position := 0
    scrolling := false
    mouseover := false
    last_mouse_pos := (-1, -1)
    rect_pos := (0, 0)
    scrollarea_present := false
    scrollarea_has_parent := false }

/-- Whether some event of the batch contributes, threading the state like
the loop does. -/
def any_contributes (env : Env) : ScrollBarState → List PyEvent → Bool
  | _, [] => false
  | s, e :: rest =>
    event_contributes s env e ||
      (match processEvent s env e with
       | none => false
       | some r => any_contributes env r.1 rest)


theorem pyRound_ge (q : ℚ) : q - 1/2 ≤ (pyRound q : ℚ) := by
  unfold pyRound
  split
  · linarith
  · split
    · push_cast
      linarith [Int.lt_floor_add_one q]
    · split <;> push_cast <;> linarith [Int.lt_floor_add_one q]

theorem pyRound_le (q : ℚ) : (pyRound q : ℚ) ≤ q + 1/2 := by
  unfold pyRound
  split
  · linarith [Int.floor_le q]
  · rename_i h1
    push_neg at h1
    split
    · push_cast
      linarith
    · rename_i h2
      push_neg at h2
      have h : q - ⌊q⌋ = 1/2 := le_antisymm h2 h1
      split <;> push_cast <;> linarith

theorem pyRound_intCast (n : ℤ) : pyRound (n : ℚ) = n := by
  unfold pyRound
  rw [Int.floor_intCast]
  simp

theorem pyTrunc_of_nonneg {q : ℚ} (h : 0 ≤ q) : pyTrunc q = ⌊q⌋ := by
  unfold pyTrunc
  rw [if_pos h]

theorem sampleBar_reachable :
    mkScrollBar 200 0 100 0 20 0 (0, 0) false false = some sampleBar := by
  simp only [mkScrollBar, set_page_step, set_orientation, sampleBar]
  norm_num

theorem sampleBarV_reachable :
    mkScrollBar 200 0 100 0 20 1 (0, 0) false false = some sampleBarV := by
  simp only [mkScrollBar, set_page_step, set_orientation, sampleBarV, sampleBar]
  norm_num

/-! ## Helper lemmas -/

theorem lt_neg_half_iff (v : ℚ) : v < -(1/2) ↔ v < 0 ∧ 1/2 < |v| := by
  constructor
  · intro h
    have hv : v < 0 := by linarith
    exact ⟨hv, by rw [abs_of_neg hv]; linarith⟩
  · rintro ⟨hv, habs⟩
    rw [abs_of_neg hv] at habs
    linarith

theorem half_lt_iff (v : ℚ) : 1/2 < v ↔ 0 < v ∧ 1/2 < |v| := by
  constructor
  · intro h
    have hv : 0 < v := by linarith
    exact ⟨hv, by rw [abs_of_pos hv]; exact h⟩
  · rintro ⟨hv, habs⟩
    rw [abs_of_pos hv] at habs
    exact habs

/-! ## Claims -/

/-- **C9** (confirmed): each of the four analog-direction predicates
`joy_axis_x_left`, `joy_axis_x_right`, `joy_axis_y_up`, `joy_axis_y_down`
returns `true` iff the event's axis magnitude strictly exceeds the
configured deadzone with the sign matching the requested direction on the
predicate's configured axis (x-left and y-up are the negative directions);
the predicates are pure functions of the event payload and mutate no
state. -/
theorem joy_axis_predicates_characterization (axis : ℤ) (value : ℚ) :
    (joy_axis_x_left axis value = true ↔
      axis = JOY_AXIS_X ∧ value < 0 ∧ JOY_DEADZONE < |value|) ∧
    (joy_axis_x_right axis value = true ↔
      axis = JOY_AXIS_X ∧ 0 < value ∧ JOY_DEADZONE < |value|) ∧
    (joy_axis_y_up axis value = true ↔
      axis = JOY_AXIS_Y ∧ value < 0 ∧ JOY_DEADZONE < |value|) ∧
    (joy_axis_y_down axis value = true ↔
      axis = JOY_AXIS_Y ∧ 0 < value ∧ JOY_DEADZONE < |value|) := by
  simp only [joy_axis_x_left, joy_axis_x_right, joy_axis_y_up, joy_axis_y_down,
    JOY_DEADZONE, Bool.and_eq_true, decide_eq_true_eq, gt_iff_lt]
  refine ⟨⟨?_, ?_⟩, ⟨?_, ?_⟩, ⟨?_, ?_⟩, ⟨?_, ?_⟩⟩ <;>
    rintro ⟨ha, hv⟩ <;>
    refine ⟨ha, ?_⟩
  · exact (lt_neg_half_iff value).mp (by linarith)
  · have := (lt_neg_half_iff value).mpr hv
    linarith
  · exact (half_lt_iff value).mp hv
  · exact (half_lt_iff value).mpr hv
  · exact (lt_neg_half_iff value).mp (by linarith)
  · have := (lt_neg_half_iff value).mpr hv
    linarith
  · exact (half_lt_iff value).mp hv
  · exact (half_lt_iff value).mpr hv

/-- **C7** (counterexample): the claim says `set_minimum(v)` fails exactly
when `v ≥ max`; but on the constructed scrollbar (max = 100) the call
`set_minimum(-1)` fails although `-1 < 100`, because the source also
asserts `0 <= value`. -/
theorem set_minimum_rejects_negative_below_max :
    set_minimum sampleBar (-1) = none ∧ (-1 : ℚ) < sampleBar.vmax := by
  constructor
  · simp only [set_minimum, sampleBar]
    norm_num
  · simp only [sampleBar]
    norm_num

/-- **C7** (amended): `set_minimum(v)` fails exactly when `v ≥ max` **or**
`v < 0`; on failure the assert fires before any mutation, so the state is
unchanged (`none` models the raised `AssertionError`); when
`0 ≤ v < max` the call succeeds and only the range minimum changes. -/
theorem set_minimum_validation (s : ScrollBarState) (v : ℚ) :
    ((set_minimum s v).isSome ↔ 0 ≤ v ∧ v < s.vmax) ∧
    (set_minimum s v = none ∨ set_minimum s v = some { s with vmin := v }) := by
  unfold set_minimum
  constructor
  · split <;> simp_all
  · split
    · right
      rfl
    · left
      rfl

/-- **C5** (counterexample): the claim says a successful `set_maximum`
re-derives `page_step_px = length * page_step_value / (max - min)` from the
new range; but on the constructed scrollbar (`length = 200`, range
`[0, 100]`, `page_step_value = 20`, `page_step_px = 40`), after
`set_maximum(150)` the pixel page step is still `40`, not
`200 * 20 / 150`. -/
theorem set_maximum_keeps_stale_page_step :
    set_maximum sampleBar 150 = some { sampleBar with vmax := 150 } ∧
    get_page_step sampleBar = some 20 ∧
    ({ sampleBar with vmax := 150 } : ScrollBarState).page_step = 40 ∧
    (40 : ℚ) ≠ 200 * 20 / (150 - 0) := by
  refine ⟨?_, ?_, rfl, by norm_num⟩
  · simp only [set_maximum, sampleBar]
    norm_num
  · simp only [get_page_step, sampleBar, pyTrunc]
    norm_num

/-- **C5** (amended): a successful `set_maximum` or `set_minimum` changes
*only* the assigned range bound; the pixel page step and the slider
position are left untouched (no re-derivation, no re-clamping), so the
geometry is not reconciled with the new range until a later
`set_page_step`/`set_length` call. -/
theorem set_range_bounds_change_only_range (s : ScrollBarState) (v : ℚ) :
    (set_maximum s v = none ∨ set_maximum s v = some { s with vmax := v }) ∧
    (set_minimum s v = none ∨ set_minimum s v = some { s with vmin := v }) := by
  unfold set_maximum set_minimum
  constructor
  · split
    · right
      rfl
    · left
      rfl
  · split
    · right
      rfl
    · left
      rfl

/-- **C8** (counterexample): the claim says the single step is recomputed
as `page_step_px / 2`; the source uses floor division (`// 2`).  On the
constructed scrollbar, `set_page_step(5/2)` derives `page_step_px = 5` and
stores `single_step = 5 // 2 = 2`, not `5 / 2`. -/
theorem set_page_step_floor_halving :
    set_page_step sampleBar (5/2) =
      some { sampleBar with page_step := 5, single_step := 2 } ∧
    (2 : ℚ) ≠ 5 / 2 := by
  constructor
  · simp only [set_page_step, sampleBar]
    norm_num
  · norm_num

/-- Evaluation lemma for `set_page_step` when its assert and division are
fine. -/
theorem set_page_step_eq (s : ScrollBarState) (v : ℚ) (hv : 0 < v)
    (hsub : s.vmax - s.vmin ≠ 0) :
    set_page_step s v = some { s with
      page_step := s.page_ctrl_length * v / (s.vmax - s.vmin)
      single_step :=
        if s.single_step ≥ s.page_ctrl_length * v / (s.vmax - s.vmin) then
          ((⌊s.page_ctrl_length * v / (s.vmax - s.vmin) / 2⌋ : ℤ) : ℚ)
        else s.single_step } := by
  unfold set_page_step
  rw [if_pos hv, if_neg hsub]

/-- **C8** (amended): on a successful `set_page_step`, if the stored single
step is `≥` the newly derived pixel page step, the single step is
recomputed as `⌊page_step_px / 2⌋` (floor division), and afterwards the
single step is strictly smaller than the page step. -/
theorem set_page_step_single_step_update (s : ScrollBarState) (v : ℚ)
    (hv : 0 < v) (hr : s.vmin < s.vmax) (hl : 0 < s.page_ctrl_length)
    (hss : s.single_step ≥ s.page_ctrl_length * v / (s.vmax - s.vmin)) :
    ∃ s', set_page_step s v = some s' ∧
      s'.page_step = s.page_ctrl_length * v / (s.vmax - s.vmin) ∧
      s'.single_step = ((⌊s'.page_step / 2⌋ : ℤ) : ℚ) ∧
      s'.single_step < s'.page_step := by
  have hsub : s.vmax - s.vmin ≠ 0 := by linarith
  have hps : 0 < s.page_ctrl_length * v / (s.vmax - s.vmin) := by
    apply div_pos (mul_pos hl hv)
    linarith
  refine ⟨_, set_page_step_eq s v hv hsub, ?_, ?_, ?_⟩
  · rfl
  · simp only [ge_iff_le] at hss ⊢
    rw [if_pos hss]
  · simp only [ge_iff_le] at hss ⊢
    rw [if_pos hss]
    calc ((⌊s.page_ctrl_length * v / (s.vmax - s.vmin) / 2⌋ : ℤ) : ℚ)
        ≤ s.page_ctrl_length * v / (s.vmax - s.vmin) / 2 := Int.floor_le _
      _ < s.page_ctrl_length * v / (s.vmax - s.vmin) := by linarith

/-- **C8** witness: the amended statement at
`set_page_step(sampleBar, 5/2)`. -/
theorem set_page_step_single_step_update_witness :
    ∃ s', set_page_step sampleBar (5/2) = some s' ∧
      s'.page_step = sampleBar.page_ctrl_length * (5/2) / (sampleBar.vmax - sampleBar.vmin) ∧
      s'.single_step = ((⌊s'.page_step / 2⌋ : ℤ) : ℚ) ∧
      s'.single_step < s'.page_step :=
  set_page_step_single_step_update sampleBar (5/2) (by norm_num)
    (by simp only [sampleBar]; norm_num)
    (by simp only [sampleBar]; norm_num)
    (by simp only [sampleBar]; norm_num)

/-- **C2** (code bug): the state with `length == page_step` is reachable
(`set_page_step(100)` on the constructed scrollbar derives
`page_step = 200 * 100 / 100 = 200 = length`); its slider position is `0`
as the claim says, but `get_value` divides by
`page_ctrl_length - page_step = 0` and raises `ZeroDivisionError`
(modelled `none`) instead of returning the range minimum. -/
theorem get_value_zero_range_fails :
    set_page_step sampleBar 100 = some { sampleBar with page_step := 200 } ∧
    ({ sampleBar with page_step := 200 } : ScrollBarState).slider_position = 0 ∧
    get_value { sampleBar with page_step := 200 } = none := by
  refine ⟨?_, rfl, ?_⟩
  · simp only [set_page_step, sampleBar]
    norm_num
  · simp only [get_value, sampleBar]
    norm_num

/-- **C10** (confirmed): at construction the page step value is `length`
when `(max - min) > length`, else `(max - min) / 5`, and the derived pixel
page step already equals `length * page_step_value / (max - min)` before
any setter is called. -/
theorem construction_page_step_derivation (length vmin vmax : ℚ)
    (pad thick : ℤ) (o : ℕ) (rp : ℤ × ℤ) (sp sh : Bool)
    (hr : vmin < vmax) (hth : thick - 2 * pad ≥ 2) (ho : o = 0 ∨ o = 1)
    (hl : 0 < length) :
    ∃ s, mkScrollBar length vmin vmax pad thick o rp sp sh = some s ∧
      s.page_step = length *
        (if vmax - vmin > length then length else (vmax - vmin) / 5) /
        (vmax - vmin) := by
  have hsub : ¬(vmax - vmin = 0) := by linarith
  simp only [mkScrollBar]
  rw [if_pos ⟨hr, hth⟩]
  by_cases hc : vmax - vmin > length
  · rw [if_pos hc, set_page_step_eq _ _ hl hsub]
    simp only [Option.some_bind, set_orientation, if_pos ho]
    rw [if_pos hc]
    exact ⟨_, rfl, rfl⟩
  · have h5 : (0 : ℚ) < (vmax - vmin) / 5 := by
      apply div_pos
      · linarith
      · norm_num
    rw [if_neg hc, set_page_step_eq _ _ h5 hsub]
    simp only [Option.some_bind, set_orientation, if_pos ho]
    rw [if_neg hc]
    exact ⟨_, rfl, rfl⟩

/-- **C10** witness: the construction-time derivation at
`ScrollBar(length=200, values_range=(0, 100))`. -/
theorem construction_page_step_derivation_witness :
    ∃ s, mkScrollBar 200 0 100 0 20 0 (0, 0) false false = some s ∧
      s.page_step = 200 *
        (if (100 : ℚ) - 0 > 200 then 200 else ((100 : ℚ) - 0) / 5) /
        ((100 : ℚ) - 0) :=
  construction_page_step_derivation 200 0 100 0 20 0 (0, 0) false false
    (by norm_num) (by norm_num) (Or.inl rfl) (by norm_num)

theorem pyTrunc_intCast (n : ℤ) : pyTrunc (n : ℚ) = n := by
  unfold pyTrunc
  split
  · exact Int.floor_intCast n
  · exact Int.ceil_intCast n

theorem narrowBar_reachable :
    mkScrollBar 10 0 12 0 20 0 (0, 0) false false = some narrowBar := by
  simp only [mkScrollBar, set_page_step, set_orientation, narrowBar]
  norm_num

/-- **C3** (counterexample): on the reachable scrollbar with `length = 10`
and fractional `page_step = 25/3`, a single `_scroll(5)` moves the slider
to position `2`, outside the claimed interval
`[0, page_ctrl_length - page_step] = [0, 5/3]` — the code clamps against
the integer-truncated rect geometry, not the real-valued bound. -/
theorem scroll_exceeds_real_bound :
    (scroll narrowBar 5).1.slider_position = 2 ∧
    ¬((scroll narrowBar 5).1.slider_position ≤
        narrowBar.page_ctrl_length - narrowBar.page_step) := by
  have h : (scroll narrowBar 5).1.slider_position = 2 := by
    simp only [scroll, narrowBar, space_before, space_after, pyRound, pyTrunc]
    norm_num
  refine ⟨h, ?_⟩
  rw [h]
  simp only [narrowBar]
  norm_num

/-- One `_scroll` call keeps an integer slider position inside
`[0, trunc(length) - trunc(page_step)]` and changes no other field. -/
theorem scroll_step_invariant (s : ScrollBarState) (px : ℚ)
    (hn : ∃ n : ℤ, s.slider_position = (n : ℚ))
    (h0 : 0 ≤ s.slider_position)
    (h1 : s.slider_position ≤
      ((pyTrunc s.page_ctrl_length - pyTrunc s.page_step : ℤ) : ℚ)) :
    (scroll s px).1.page_ctrl_length = s.page_ctrl_length ∧
    (scroll s px).1.page_step = s.page_step ∧
    (∃ n : ℤ, (scroll s px).1.slider_position = (n : ℚ)) ∧
    0 ≤ (scroll s px).1.slider_position ∧
    (scroll s px).1.slider_position ≤
      ((pyTrunc s.page_ctrl_length - pyTrunc s.page_step : ℤ) : ℚ) := by
  obtain ⟨n, hpos⟩ := hn
  have h0' : 0 ≤ n := by exact_mod_cast hpos ▸ h0
  have h1' : n ≤ pyTrunc s.page_ctrl_length - pyTrunc s.page_step := by
    exact_mod_cast hpos ▸ h1
  simp only [scroll]
  split_ifs with hpx hmv
  · exact ⟨rfl, rfl, ⟨n, hpos⟩, h0, h1⟩
  · exact ⟨rfl, rfl, ⟨n, hpos⟩, h0, h1⟩
  · refine ⟨rfl, rfl, ?_⟩
    have htr : pyTrunc s.slider_position = n := by
      rw [hpos, pyTrunc_intCast]
    set move := min (max (pyRound px) (space_before s)) (space_after s) with hmove
    have hlo : -n ≤ move := by
      have hA : 0 ≤ space_after s := by
        simp only [space_after, htr]
        omega
      have : -n ≤ max (pyRound px) (space_before s) := by
        simp only [space_before, htr]
        exact le_max_right _ _
      omega
    have hhi : move ≤ pyTrunc s.page_ctrl_length - pyTrunc s.page_step - n := by
      have : move ≤ space_after s := min_le_right _ _
      simp only [space_after, htr] at this
      omega
    refine ⟨⟨n + move, ?_⟩, ?_, ?_⟩
    · rw [hpos]
      push_cast
      ring
    · rw [hpos]
      push_cast
      have : (0 : ℚ) ≤ ((n + move : ℤ) : ℚ) := by exact_mod_cast by omega
      push_cast at this
      linarith
    · rw [hpos]
      have : ((n + move : ℤ) : ℚ) ≤
          ((pyTrunc s.page_ctrl_length - pyTrunc s.page_step : ℤ) : ℚ) := by
        exact_mod_cast by omega
      push_cast at this ⊢
      linarith

/-- **C3** (amended): starting from any state whose slider position is an
integer in `[0, trunc(page_ctrl_length) - trunc(page_step)]` — the pixel
interval actually enforced by the integer slider-rect geometry — every
sequence of `_scroll` calls with arbitrary pixel deltas keeps the position
an integer inside that interval (which can exceed the real-valued
`page_ctrl_length - page_step` when the page step is fractional). -/
theorem scroll_sequence_position_bounds (s : ScrollBarState) (ps : List ℚ)
    (hn : ∃ n : ℤ, s.slider_position = (n : ℚ))
    (h0 : 0 ≤ s.slider_position)
    (h1 : s.slider_position ≤
      ((pyTrunc s.page_ctrl_length - pyTrunc s.page_step : ℤ) : ℚ)) :
    (∃ n : ℤ, (scroll_many s ps).slider_position = (n : ℚ)) ∧
    0 ≤ (scroll_many s ps).slider_position ∧
    (scroll_many s ps).slider_position ≤
      ((pyTrunc s.page_ctrl_length - pyTrunc s.page_step : ℤ) : ℚ) := by
  induction ps generalizing s with
  | nil => exact ⟨hn, h0, h1⟩
  | cons px rest ih =>
    obtain ⟨hL, hP, hn', h0', h1'⟩ := scroll_step_invariant s px hn h0 h1
    have := ih (scroll s px).1 hn' h0' (by rw [hL, hP]; exact h1')
    rw [hL, hP] at this
    exact this

/-- **C3** witness: the amended invariant on the constructed scrollbar,
scrolled by `+1000`, `-7/2`, `+5` and `-1000` pixels. -/
theorem scroll_sequence_position_bounds_witness :
    (∃ n : ℤ, (scroll_many narrowBar [1000, -7/2, 5, -1000]).slider_position = (n : ℚ)) ∧
    0 ≤ (scroll_many narrowBar [1000, -7/2, 5, -1000]).slider_position ∧
    (scroll_many narrowBar [1000, -7/2, 5, -1000]).slider_position ≤
      ((pyTrunc narrowBar.page_ctrl_length - pyTrunc narrowBar.page_step : ℤ) : ℚ) :=
  scroll_sequence_position_bounds narrowBar [1000, -7/2, 5, -1000]
    ⟨0, by simp only [narrowBar]; norm_num⟩
    (by simp only [narrowBar]; norm_num)
    (by simp only [narrowBar, pyTrunc]
        norm_num)

/-- `_scroll` touches no field other than the slider position. -/
theorem scroll_only_position (s : ScrollBarState) (d : ℚ) :
    ∃ q, (scroll s d).1 = { s with slider_position := q } := by
  unfold scroll
  split_ifs
  · exact ⟨s.slider_position, rfl⟩
  · exact ⟨s.slider_position, rfl⟩
  · exact ⟨_, rfl⟩

/-- Under the position invariant, `_scroll` lands exactly at the clamped
rounded target, in every branch (including the two early returns). -/
theorem scroll_pos_formula (s : ScrollBarState) (d : ℚ) (n : ℤ)
    (hpos : s.slider_position = (n : ℚ)) (h0 : 0 ≤ n)
    (h1 : n ≤ pyTrunc s.page_ctrl_length - pyTrunc s.page_step) :
    (scroll s d).1.slider_position = (n : ℚ) +
      ((min (max (pyRound d) (-n))
        (pyTrunc s.page_ctrl_length - pyTrunc s.page_step - n) : ℤ) : ℚ) := by
  have hsb : space_before s = -n := by
    simp only [space_before, hpos, pyTrunc_intCast]
  have hsa : space_after s =
      pyTrunc s.page_ctrl_length - pyTrunc s.page_step - n := by
    simp only [space_after, hpos, pyTrunc_intCast]
    ring
  unfold scroll
  split_ifs with hd hmv
  · subst hd
    have hr0 : pyRound 0 = 0 := by
      have := pyRound_intCast 0
      simpa using this
    rw [hpos, hr0]
    have : min (max (0 : ℤ) (-n))
        (pyTrunc s.page_ctrl_length - pyTrunc s.page_step - n) = 0 := by
      omega
    rw [this]
    push_cast
    ring
  · rw [hsb, hsa] at hmv
    rw [hpos, hmv]
    push_cast
    ring
  · rw [hsb, hsa] at hmv ⊢
    simp only [hpos]

/-- Python truncation lands strictly within one unit of its argument. -/
theorem pyTrunc_close (q : ℚ) :
    q - 1 < (pyTrunc q : ℚ) ∧ (pyTrunc q : ℚ) < q + 1 := by
  unfold pyTrunc
  split
  · constructor
    · linarith [Int.lt_floor_add_one q]
    · linarith [Int.floor_le q]
  · constructor
    · linarith [Int.le_ceil q]
    · linarith [Int.ceil_lt_add_one q]

/-- The clamped rounded move lands strictly within one pixel of any
nonnegative target `t` that does not exceed the clamp wall by a full
pixel. -/
theorem clamp_round_lt_one (n A : ℤ) (t : ℚ) (h0 : 0 ≤ n) (h1 : n ≤ A)
    (ht0 : 0 ≤ t) (htA : t - 1 < (A : ℚ)) :
    |((n : ℚ) + ((min (max (pyRound (t - (n : ℚ))) (-n)) (A - n) : ℤ) : ℚ)) - t|
      < 1 := by
  set d := t - (n : ℚ) with hd
  have hge := pyRound_ge d
  have hle := pyRound_le d
  set r := pyRound d with hr
  rcases le_or_lt r (-n) with hc1 | hc1
  · have hmax : max r (-n) = -n := max_eq_right hc1
    have hmin : min (-n) (A - n) = -n := min_eq_left (by omega)
    rw [hmax, hmin]
    have hrq : (r : ℚ) ≤ ((-n : ℤ) : ℚ) := by exact_mod_cast hc1
    rw [abs_lt]
    push_cast at hrq ⊢
    constructor <;> linarith
  · rcases le_or_lt (A - n) r with hc2 | hc2
    · have hmax : max r (-n) = r := max_eq_left (le_of_lt hc1)
      have hmin : min r (A - n) = A - n := min_eq_right hc2
      rw [hmax, hmin]
      have hrq : ((A - n : ℤ) : ℚ) ≤ (r : ℚ) := by exact_mod_cast hc2
      rw [abs_lt]
      push_cast at hrq ⊢
      constructor <;> linarith
    · have hmax : max r (-n) = r := max_eq_left (le_of_lt hc1)
      have hmin : min r (A - n) = r := min_eq_left (le_of_lt hc2)
      rw [hmax, hmin]
      rw [abs_lt]
      constructor <;> linarith

/-- **C4** (confirmed): on every state satisfying the scrollbar's
reachable invariants — `min < max`, `0 < page_step < length` (the spec's
own data-model invariant `page_step_px < track_length`), and an integer
slider position inside the truncated travel interval
`[0, trunc(length) - trunc(page_step)]` — and for every value
`min ≤ v ≤ max`, `set_value(v)` followed by `get_value()` returns `v` up
to the truncation error: the landing position is within one pixel of the
exact pixel target, so the result is strictly less than
`(max - min) / (length - page_step) + 1` away from `v` (one pixel in
value units plus the final integer truncation).  Fractional lengths and
page steps, negative minima and positions beyond the real-valued
`length - page_step` are all covered. -/
theorem set_value_get_value_roundtrip (s : ScrollBarState) (v : ℚ)
    (hr : s.vmin < s.vmax) (hP0 : 0 < s.page_step)
    (hPL : s.page_step < s.page_ctrl_length)
    (n : ℤ) (hpos : s.slider_position = (n : ℚ)) (hn0 : 0 ≤ n)
    (hn1 : n ≤ pyTrunc s.page_ctrl_length - pyTrunc s.page_step)
    (hv1 : s.vmin ≤ v) (hv2 : v ≤ s.vmax) :
    ∃ s' r, set_value s v = some s' ∧ get_value s' = some r ∧
      |(r : ℚ) - v| <
        (s.vmax - s.vmin) / (s.page_ctrl_length - s.page_step) + 1 := by
  have hD : 0 < s.page_ctrl_length - s.page_step := by linarith
  have hV : 0 < s.vmax - s.vmin := by linarith
  have hVne : s.vmax - s.vmin ≠ 0 := ne_of_gt hV
  have htrL : pyTrunc s.page_ctrl_length = ⌊s.page_ctrl_length⌋ :=
    pyTrunc_of_nonneg (by linarith)
  have htrP : pyTrunc s.page_step = ⌊s.page_step⌋ :=
    pyTrunc_of_nonneg (le_of_lt hP0)
  -- the truncated clamp wall misses the real travel bound by less than 1
  have hAgt : (s.page_ctrl_length - s.page_step) - 1 <
      ((pyTrunc s.page_ctrl_length - pyTrunc s.page_step : ℤ) : ℚ) := by
    rw [htrL, htrP]
    push_cast
    have h1 := Int.lt_floor_add_one s.page_ctrl_length
    have h2 := Int.floor_le s.page_step
    linarith
  set t : ℚ := (v - s.vmin) * (s.page_ctrl_length - s.page_step) /
    (s.vmax - s.vmin) with hT
  have ht0 : 0 ≤ t :=
    div_nonneg (mul_nonneg (by linarith) (le_of_lt hD)) (le_of_lt hV)
  have ht1 : t ≤ s.page_ctrl_length - s.page_step := by
    rw [hT, div_le_iff₀ hV]
    nlinarith
  have hmaxt : max 0 t = t := max_eq_right ht0
  have hmint : min (s.page_ctrl_length - s.page_step) t = t := min_eq_right ht1
  -- evaluate set_value; rewrite the current position to its integer value
  have hsv : set_value s v = some (scroll s (t - (n : ℚ))).1 := by
    unfold set_value
    rw [if_pos ⟨hv1, hv2⟩, if_neg hVne]
    rw [← hT, hmaxt, hmint, hpos]
  obtain ⟨q, hq⟩ := scroll_only_position s (t - (n : ℚ))
  have hpos' := scroll_pos_formula s (t - (n : ℚ)) n hpos hn0 hn1
  have hclose : |(scroll s (t - (n : ℚ))).1.slider_position - t| < 1 := by
    rw [hpos']
    exact clamp_round_lt_one n _ t hn0 hn1 ht0 (by linarith)
  -- the landed position is nonnegative
  set move := min (max (pyRound (t - (n : ℚ))) (-n))
    (pyTrunc s.page_ctrl_length - pyTrunc s.page_step - n) with hmv
  have hmlo : -n ≤ move := by
    rw [hmv]
    refine le_min (le_max_right _ _) ?_
    omega
  have hpos'0 : 0 ≤ (scroll s (t - (n : ℚ))).1.slider_position := by
    rw [hpos']
    have h : (0 : ℤ) ≤ n + move := by omega
    exact_mod_cast h
  -- evaluate get_value on the new state
  have hL' : (scroll s (t - (n : ℚ))).1.page_ctrl_length = s.page_ctrl_length := by
    rw [hq]
  have hP' : (scroll s (t - (n : ℚ))).1.page_step = s.page_step := by rw [hq]
  have hvm' : (scroll s (t - (n : ℚ))).1.vmin = s.vmin := by rw [hq]
  have hvx' : (scroll s (t - (n : ℚ))).1.vmax = s.vmax := by rw [hq]
  set p' := (scroll s (t - (n : ℚ))).1.slider_position with hp'
  set raw : ℚ := s.vmin + p' * (s.vmax - s.vmin) /
    (s.page_ctrl_length - s.page_step) with hraw
  have hraw_lo : s.vmin ≤ raw := by
    rw [hraw]
    have h : 0 ≤ p' * (s.vmax - s.vmin) / (s.page_ctrl_length - s.page_step) := by
      apply div_nonneg
      · apply mul_nonneg hpos'0
        linarith
      · linarith
    linarith
  have hgv : get_value (scroll s (t - (n : ℚ))).1 =
      some (pyTrunc (min s.vmax raw)) := by
    unfold get_value
    rw [hL', hP', hvm', hvx', ← hp']
    rw [if_neg (ne_of_gt hD)]
    rw [← hraw, max_eq_right hraw_lo]
  refine ⟨_, pyTrunc (min s.vmax raw), hsv, hgv, ?_⟩
  -- the error bound: one pixel scaled to value units, then one truncation
  set R := (s.vmax - s.vmin) / (s.page_ctrl_length - s.page_step) with hR
  have hratio : 0 < R := div_pos hV hD
  have hraw_eq : raw = v + (p' - t) * R := by
    rw [hraw, hT, hR]
    field_simp
    ring
  have he := hclose
  rw [abs_lt] at he
  have hprod1 : (p' - t) * R < 1 * R := mul_lt_mul_of_pos_right he.2 hratio
  have hprod2 : (-1) * R < (p' - t) * R := mul_lt_mul_of_pos_right he.1 hratio
  have hcl_hi : min s.vmax raw - v < R := by
    have h := min_le_right s.vmax raw
    nlinarith
  have hcl_lo : v - R < min s.vmax raw := by
    rcases le_or_lt raw s.vmax with hc | hc
    · rw [min_eq_right hc]
      nlinarith
    · rw [min_eq_left (le_of_lt hc)]
      linarith
  have htr := pyTrunc_close (min s.vmax raw)
  clear_value t move p' raw R
  rw [abs_lt]
  constructor
  · linarith [htr.1]
  · linarith [htr.2]

/-- **C4** witness: the round-trip bound at `set_value(7)` on the
fractional-geometry scrollbar `ScrollBar(length=10, values_range=(0, 12))`
(`page_step = 25/3`), a state the claim's hypotheses must cover. -/
theorem set_value_get_value_roundtrip_witness :
    ∃ s' r, set_value narrowBar 7 = some s' ∧ get_value s' = some r ∧
      |(r : ℚ) - 7| <
        (narrowBar.vmax - narrowBar.vmin) /
          (narrowBar.page_ctrl_length - narrowBar.page_step) + 1 :=
  set_value_get_value_roundtrip narrowBar 7
    (by simp only [narrowBar]; norm_num)
    (by simp only [narrowBar]; norm_num)
    (by simp only [narrowBar]; norm_num)
    0
    (by simp only [narrowBar]; norm_num)
    (by norm_num)
    (by simp only [narrowBar, pyTrunc]; norm_num)
    (by simp only [narrowBar]; norm_num)
    (by simp only [narrowBar]; norm_num)

/-! ## The `update` loop bookkeeping lemmas -/

/-- The per-event `updated` bit computed by the loop body coincides with
the spec-side contribution predicate. -/
theorem processEvent_updated_eq (s : ScrollBarState) (env : Env) (e : PyEvent)
    (res : ScrollBarState × Bool × ℕ) (h : processEvent s env e = some res) :
    res.2.1 = event_contributes s env e := by
  cases e with
  | keydown key =>
    simp only [processEvent] at h
    simp only [event_contributes]
    split at h
    · rename_i hc
      obtain ⟨h1, h2, h3⟩ := hc
      cases h
      rcases h3 with h3 | h3 <;> subst h3 <;> simp [h1, h2]
    · rename_i hc
      cases h
      push_neg at hc
      cases hk : s.keyboard_enabled with
      | false => simp [hk]
      | true =>
        rcases eq_or_ne s.orientation 1 with ho | ho
        · have h3 := hc hk ho
          simp [hk, ho, h3.1, h3.2]
        · simp [ho]
  | mousemotion relx rely posx posy hrel =>
    simp only [processEvent] at h
    simp only [event_contributes]
    split at h
    · rename_i hc
      obtain ⟨h1, h2⟩ := hc
      split at h
      · cases h
      · rename_i heq
        cases h
        simp [heq]
      · rename_i heq
        cases h
        cases hscr : s.scrolling with
        | false => simp [heq, hscr]
        | true => simp [heq, h1, h2, hscr]
    · rename_i hc
      cases h
      push_neg at hc
      cases hm : s.mouse_enabled with
      | false => simp [hm]
      | true =>
        have h2 := hc hm
        have hx : hrel = false := by
          cases hrel
          · rfl
          · exact absurd rfl h2
        simp [hx]
  | activeevent gain =>
    simp only [processEvent] at h
    simp only [event_contributes]
    split at h
    · cases h
      rfl
    · split at h
      · cases h
        rfl
      · split at h <;> cases h <;> rfl
  | mousebuttondown button posx posy =>
    simp only [processEvent] at h
    simp only [event_contributes]
    split at h
    · rename_i hm
      split at h
      · rename_i hw
        cases h
        simp [hm, hw]
      · rename_i hw
        split at h
        · rename_i hb
          split at h
          · rename_i hs
            cases h
            simp [hm, hw, hb, hs]
          · rename_i hs
            split at h
            · rename_i hrc
              cases h
              simp [hm, hw, hb, hs, hrc]
            · rename_i hrc
              cases h
              simp [hm, hw, hb, hs, hrc]
        · rename_i hb
          cases h
          simp [hm, hw, hb]
    · rename_i hm
      cases h
      simp only [Bool.not_eq_true] at hm
      simp [hm]
  | mousebuttonup posx posy =>
    simp only [processEvent] at h
    simp only [event_contributes]
    split at h
    · rename_i hm
      split at h
      · rename_i hscr
        cases h
        simp [hm, hscr]
      · rename_i hscr
        cases h
        simp only [Bool.not_eq_true] at hscr
        simp [hm, hscr]
    · rename_i hm
      cases h
      simp only [Bool.not_eq_true] at hm
      simp [hm]
  | other =>
    simp only [processEvent] at h
    cases h
    rfl

/-- A positive `if bit then 1 else 0` count forces the bit. -/
theorem count_pos_bit {b : Bool} (h : 0 < (if b = true then (1 : ℕ) else 0)) :
    b = true := by
  cases b
  · simp at h
  · rfl

/-- The per-event loop body notifies (`change()`) only when it also sets
`updated`. -/
theorem processEvent_changes_pos (s : ScrollBarState) (env : Env) (e : PyEvent)
    (res : ScrollBarState × Bool × ℕ) (h : processEvent s env e = some res)
    (hc : 0 < res.2.2) : res.2.1 = true := by
  cases e with
  | keydown key =>
    simp only [processEvent] at h
    split at h <;> cases h
    · exact count_pos_bit hc
    · simp at hc
  | mousemotion relx rely posx posy hrel =>
    simp only [processEvent] at h
    split at h
    · split at h
      · cases h
      · cases h
        simp at hc
      · cases h
        exact count_pos_bit hc
    · cases h
      simp at hc
  | activeevent gain =>
    simp only [processEvent] at h
    split at h
    · cases h
      simp at hc
    · split at h
      · cases h
        simp at hc
      · split at h <;> cases h <;> simp at hc
  | mousebuttondown button posx posy =>
    simp only [processEvent] at h
    split at h
    · split at h
      · cases h
        exact count_pos_bit hc
      · split at h
        · split at h
          · cases h
            simp at hc
          · split at h
            · cases h
              exact count_pos_bit hc
            · cases h
              simp at hc
        · cases h
          simp at hc
    · cases h
      simp at hc
  | mousebuttonup posx posy =>
    simp only [processEvent] at h
    split at h
    · split at h <;> cases h <;> simp at hc
    · cases h
      simp at hc
  | other =>
    simp only [processEvent] at h
    cases h
    simp at hc

/-- Unfolding equation: the loop over `e :: rest`. -/
theorem processEvents_cons (s : ScrollBarState) (env : Env) (e : PyEvent)
    (evs : List PyEvent) (s1 s2 : ScrollBarState) (u1 u2 : Bool) (c1 c2 : ℕ)
    (h1 : processEvent s env e = some (s1, u1, c1))
    (h2 : processEvents s1 env evs = some (s2, u2, c2)) :
    processEvents s env (e :: evs) = some (s2, u1 || u2, c1 + c2) := by
  unfold processEvents
  rw [h1]
  dsimp only
  rw [h2]

/-- The loop returns `true` iff some event contributed. -/
theorem processEvents_updated_eq (env : Env) (evs : List PyEvent) :
    ∀ (s : ScrollBarState) (res : ScrollBarState × Bool × ℕ),
      processEvents s env evs = some res →
      res.2.1 = any_contributes env s evs := by
  induction evs with
  | nil =>
    intro s res h
    cases h
    rfl
  | cons e rest ih =>
    intro s res h
    unfold processEvents at h
    cases he : processEvent s env e with
    | none =>
      rw [he] at h
      cases h
    | some r1 =>
      rw [he] at h
      obtain ⟨s1, u1, c1⟩ := r1
      dsimp only at h
      cases hr : processEvents s1 env rest with
      | none =>
        rw [hr] at h
        cases h
      | some r2 =>
        rw [hr] at h
        obtain ⟨s2, u2, c2⟩ := r2
        dsimp only at h
        cases h
        unfold any_contributes
        rw [he]
        have hu1 : u1 = event_contributes s env e :=
          processEvent_updated_eq s env e _ he
        have hu2 : u2 = any_contributes env s1 rest := ih s1 _ hr
        dsimp only
        rw [hu1, hu2]

/-- The loop's `change()` count forces the returned flag. -/
theorem processEvents_changes_pos (env : Env) (evs : List PyEvent) :
    ∀ (s : ScrollBarState) (res : ScrollBarState × Bool × ℕ),
      processEvents s env evs = some res →
      0 < res.2.2 → res.2.1 = true := by
  induction evs with
  | nil =>
    intro s res h hc
    cases h
    simp at hc
  | cons e rest ih =>
    intro s res h hc
    unfold processEvents at h
    cases he : processEvent s env e with
    | none =>
      rw [he] at h
      cases h
    | some r1 =>
      rw [he] at h
      obtain ⟨s1, u1, c1⟩ := r1
      dsimp only at h
      cases hr : processEvents s1 env rest with
      | none =>
        rw [hr] at h
        cases h
      | some r2 =>
        rw [hr] at h
        obtain ⟨s2, u2, c2⟩ := r2
        dsimp only at h
        cases h
        simp only at hc
        by_cases hc1 : 0 < c1
        · have hb := processEvent_changes_pos s env e _ he hc1
          simp only at hb
          simp [hb]
        · have hc2 : 0 < c2 := by omega
          have hb := ih s1 _ hr hc2
          simp only at hb
          simp [hb]


/-- Processing a concatenated batch threads the state and adds the
notification counts; the returned flag is the disjunction. -/
theorem processEvents_append (env : Env) (l₁ : List PyEvent) :
    ∀ (l₂ : List PyEvent) (s s1 s2 : ScrollBarState) (u1 u2 : Bool) (c1 c2 : ℕ),
      processEvents s env l₁ = some (s1, u1, c1) →
      processEvents s1 env l₂ = some (s2, u2, c2) →
      processEvents s env (l₁ ++ l₂) = some (s2, u1 || u2, c1 + c2) := by
  induction l₁ with
  | nil =>
    intro l₂ s s1 s2 u1 u2 c1 c2 h1 h2
    cases h1
    simpa using h2
  | cons e rest ih =>
    intro l₂ s s1 s2 u1 u2 c1 c2 h1 h2
    unfold processEvents at h1
    cases he : processEvent s env e with
    | none =>
      rw [he] at h1
      cases h1
    | some r1 =>
      rw [he] at h1
      obtain ⟨sa, ua, ca⟩ := r1
      dsimp only at h1
      cases hrest : processEvents sa env rest with
      | none =>
        rw [hrest] at h1
        cases h1
      | some r2 =>
        rw [hrest] at h1
        obtain ⟨sb, ub, cb⟩ := r2
        dsimp only at h1
        cases h1
        have hmid := ih l₂ sa s1 s2 ub u2 cb c2 hrest h2
        have := processEvents_cons s env e (rest ++ l₂) sa s2 ua (ub || u2)
          ca (cb + c2) he hmid
        rw [List.cons_append]
        rw [this]
        rw [Bool.or_assoc]
        rw [Nat.add_assoc]

/-- **C6** (counterexample): the claim says `update(events)` returns `true`
iff some event changed the scrollbar's position; but a pointer-down on the
slider followed by a pointer-up yields `true` while the final state equals
the initial one (the slider never moved): releasing the button while a drag
is active sets `updated` on its own. -/
theorem update_buttonup_returns_true_without_move :
    update sampleBar ⟨false, 0, 0, false⟩
      [PyEvent.mousebuttondown 1 1 1, PyEvent.mousebuttonup 0 0] =
      some ⟨sampleBar, true, 0, true⟩ := by
  norm_num [update, processEvents, processEvent, sampleBar, slider_collide,
    point_in_rect, slider_x, slider_y, slider_w, slider_h, pyTrunc]

/-- **C6** (amended): `update([])` returns `false`, changes nothing and
fires no callback; in general (when no event raises) `update(events)`
returns `true` iff the widget is active (not read-only, visible) and some
event *contributes*: it produces a nonzero clamped move through a notifying
interaction (keyboard paging, wheel stepping, drag motion, track click) or
it is a mouse-button-up ending an active drag — moves applied by the
`ACTIVEEVENT` focus-regain path do not count. -/
theorem update_return_characterization (s : ScrollBarState) (env : Env)
    (evs : List PyEvent) (out : UpdateResult)
    (h : update s env evs = some out) :
    update s env [] = some ⟨s, false, 0, false⟩ ∧
    out.changed = (!s.readonly && s.visible && any_contributes env s evs) := by
  constructor
  · unfold update processEvents
    split_ifs <;> rfl
  · unfold update at h
    split_ifs at h with hg
    · cases h
      rcases hg with hg | hg
      · simp [hg]
      · simp [hg]
    · push_neg at hg
      obtain ⟨hro, hvis⟩ := hg
      simp only [Bool.not_eq_true] at hro
      simp only [Bool.not_eq_false] at hvis
      cases hp : processEvents s env evs with
      | none =>
        rw [hp] at h
        cases h
      | some r =>
        rw [hp] at h
        obtain ⟨s', u, c⟩ := r
        dsimp only at h
        cases h
        have hu := processEvents_updated_eq env evs s _ hp
        simp only at hu
        simp [hro, hvis, hu]

/-- **C6** witness: the characterization applied to the constructed
scrollbar on the singleton batch of an unhandled event. -/
theorem update_return_characterization_witness :
    update sampleBar ⟨false, 0, 0, false⟩ [] = some ⟨sampleBar, false, 0, false⟩ ∧
    (⟨sampleBar, false, 0, false⟩ : UpdateResult).changed =
      (!sampleBar.readonly && sampleBar.visible &&
        any_contributes ⟨false, 0, 0, false⟩ sampleBar [PyEvent.other]) :=
  update_return_characterization sampleBar ⟨false, 0, 0, false⟩ [PyEvent.other]
    ⟨sampleBar, false, 0, false⟩
    (by norm_num [update, processEvents, processEvent, sampleBar])

/-- **C1** (counterexample): the claim says the change notification fires
exactly once per `update` call; but two wheel events in one batch on the
vertical scrollbar each produce a nonzero clamped move and `change()` fires
twice (`change_calls = 2`). -/
theorem update_two_wheel_events_fire_change_twice :
    update sampleBarV ⟨false, 0, 0, false⟩
      [PyEvent.mousebuttondown 5 0 0, PyEvent.mousebuttondown 5 0 0] =
      some ⟨{ sampleBarV with slider_position := 40 }, true, 2, true⟩ := by
  norm_num [update, processEvents, processEvent, sampleBarV, sampleBar, scroll,
    space_before, space_after, pyTrunc, pyRound]

/-- **C1** (amended): the onchange notification is *not* coalesced: the
loop fires it immediately for each event that produced a nonzero clamped
notifying move, and the counts add across a batch split (so a batch with
`n` contributing events fires `n` notifications); every notification
implies the call reports a change, and the separate update callbacks are
applied exactly once, after the loop, iff `update` returns `true`. -/
theorem update_notification_accumulation (s : ScrollBarState) (env : Env)
    (l₁ l₂ : List PyEvent) (s1 s2 : ScrollBarState) (u1 u2 : Bool) (c1 c2 : ℕ)
    (h1 : processEvents s env l₁ = some (s1, u1, c1))
    (h2 : processEvents s1 env l₂ = some (s2, u2, c2))
    (evs : List PyEvent) (out : UpdateResult)
    (h : update s env evs = some out) :
    processEvents s env (l₁ ++ l₂) = some (s2, u1 || u2, c1 + c2) ∧
    out.update_cbs_applied = out.changed ∧
    (out.changed = true ∨ out.change_calls = 0) := by
  refine ⟨processEvents_append env l₁ l₂ s s1 s2 u1 u2 c1 c2 h1 h2, ?_, ?_⟩
  · unfold update at h
    split_ifs at h with hg
    · cases h
      rfl
    · cases hp : processEvents s env evs with
      | none =>
        rw [hp] at h
        cases h
      | some r =>
        rw [hp] at h
        obtain ⟨s', u, c⟩ := r
        dsimp only at h
        cases h
        rfl
  · unfold update at h
    split_ifs at h with hg
    · cases h
      right
      rfl
    · cases hp : processEvents s env evs with
      | none =>
        rw [hp] at h
        cases h
      | some r =>
        rw [hp] at h
        obtain ⟨s', u, c⟩ := r
        dsimp only at h
        cases h
        by_cases hc : 0 < c
        · left
          have := processEvents_changes_pos env evs s _ hp hc
          simpa using this
        · right
          simp only
          omega

/-- **C1** witness: the accumulation statement applied to the constructed
scrollbar with two singleton batches of an unhandled event. -/
theorem update_notification_accumulation_witness :
    processEvents sampleBar ⟨false, 0, 0, false⟩
      ([PyEvent.other] ++ [PyEvent.other]) =
      some (sampleBar, false || false, 0 + 0) ∧
    (⟨sampleBar, false, 0, false⟩ : UpdateResult).update_cbs_applied =
      (⟨sampleBar, false, 0, false⟩ : UpdateResult).changed ∧
    ((⟨sampleBar, false, 0, false⟩ : UpdateResult).changed = true ∨
      (⟨sampleBar, false, 0, false⟩ : UpdateResult).change_calls = 0) :=
  update_notification_accumulation sampleBar ⟨false, 0, 0, false⟩
    [PyEvent.other] [PyEvent.other] sampleBar sampleBar false false 0 0
    (by norm_num [processEvents, processEvent])
    (by norm_num [processEvents, processEvent])
    [PyEvent.other] ⟨sampleBar, false, 0, false⟩
    (by norm_num [update, processEvents, processEvent, sampleBar])

end PygameMenu
